import Mathlib

/-!
Verification development for the ipfs-risc0 repository.

The repository binds off-chain `Player` records to on-chain identifiers by
deterministic content addressing (serde_json serialization, go-ipfs-compatible
UnixFS chunked hashing producing a CIDv0), and proves the binding inside two
RISC Zero guest programs: a leaf circuit (`verify_cid.rs`) asserting that the
on-chain token URI equals the record's CID string, and an aggregate circuit
(`make_team.rs`) consuming eleven leaf proofs as assumptions.

Byte strings are modelled as `List Nat` (each entry a byte value), machine
words as `Nat` reduced modulo `2 ^ 32` where the source uses `u32` arithmetic.
All recursion is structural (fuel-based where the source iterates on data),
so every definition evaluates by kernel reduction.
-/

/-- Reduce a natural number to a 32-bit word, as Rust `u32` wrapping does. -/
def w32 (n : Nat) : Nat := n % 4294967296

/-- Right rotation of a 32-bit word by `n` places. -/
def rotr (n x : Nat) : Nat := w32 ((x >>> n) ||| (x <<< (32 - n)))

/-- Big-endian byte rendering of `n` into exactly `k` bytes. -/
def beBytes : Nat → Nat → List Nat
  | 0, _ => []
  | k + 1, n => beBytes k (n / 256) ++ [n % 256]

/-- Split a list into consecutive groups of `k` elements; `fuel` bounds the
number of groups produced and is instantiated with the list length. -/
def groupsOf (k : Nat) : Nat → List Nat → List (List Nat)
  | 0, _ => []
  | _, [] => []
  | fuel + 1, xs => xs.take k :: groupsOf k fuel (xs.drop k)

/-- Pack the eight 32-bit words of a SHA-256 state into one natural number,
word `a` highest; keeping the state packed makes every intermediate value of
the compression a single numeral. -/
def pack8 (a b c d e f g h : Nat) : Nat :=
  ((((((a <<< 32 ||| b) <<< 32 ||| c) <<< 32 ||| d) <<< 32 ||| e) <<< 32 ||| f)
    <<< 32 ||| g) <<< 32 ||| h

/-- Word `i` (counted from the low end, `h` = 0) of a packed SHA-256 state. -/
def unpack (st i : Nat) : Nat := (st >>> (32 * i)) &&& 4294967295

/-- SHA-256 initial state (FIPS 180-4), as one packed 256-bit numeral. -/
def shaInit : Nat :=
  0x6a09e667bb67ae853c6ef372a54ff53a510e527f9b05688c1f83d9ab5be0cd19

/-- The 64 SHA-256 round constants (FIPS 180-4), concatenated big-endian
into one 2048-bit numeral, the first constant highest. -/
def shaKPacked : Nat :=
  0x428a2f9871374491b5c0fbcfe9b5dba53956c25b59f111f1923f82a4ab1c5ed5d807aa9812835b01243185be550c7dc372be5d7480deb1fe9bdc06a7c19bf174e49b69c1efbe47860fc19dc6240ca1cc2de92c6f4a7484aa5cb0a9dc76f988da983e5152a831c66db00327c8bf597fc7c6e00bf3d5a7914706ca63511429296727b70a852e1b21384d2c6dfc53380d13650a7354766a0abb81c2c92e92722c85a2bfe8a1a81a664bc24b8b70c76c51a3d192e819d6990624f40e3585106aa07019a4c1161e376c082748774c34b0bcb5391c0cb34ed8aa4a5b9cca4f682e6ff3748f82ee78a5636f84c878148cc7020890befffaa4506cebbef9a3f7c67178f2

/-- The 64 SHA-256 round constants in order, extracted from the packed
numeral. -/
def shaK : List Nat := (List.range 64).map (fun i => unpack shaKPacked (63 - i))

/-- SHA-256 message padding: append a `0x80` byte, zero bytes up to 56 mod 64,
and the bit length as an 8-byte big-endian integer. -/
def shaPad (msg : List Nat) : List Nat :=
  let L := msg.length
  let zeros := (64 - (L + 9) % 64) % 64
  msg ++ [128] ++ List.replicate zeros 0 ++ beBytes 8 (8 * L)

/-- Combine four bytes into one big-endian 32-bit word. -/
def word4 (bs : List Nat) : Nat := bs.foldl (fun acc b => acc * 256 + b) 0

/-- One step of the SHA-256 message-schedule extension: append word `i` of the
schedule, where `i` is the current length of the accumulated schedule. -/
def shaExtendStep (w : List Nat) : List Nat :=
  let i := w.length
  let w15 := w.getD (i - 15) 0
  let w2 := w.getD (i - 2) 0
  let s0 := (rotr 7 w15) ^^^ (rotr 18 w15) ^^^ (w15 >>> 3)
  let s1 := (rotr 17 w2) ^^^ (rotr 19 w2) ^^^ (w2 >>> 10)
  w ++ [w32 (w.getD (i - 16) 0 + s0 + w.getD (i - 7) 0 + s1)]

/-- Iterate a function `n` times. -/
def iterN (f : α → α) : Nat → α → α
  | 0, x => x
  | n + 1, x => iterN f n (f x)

/-- The full 64-word SHA-256 message schedule of one 64-byte block. -/
def shaSchedule (block : List Nat) : List Nat :=
  iterN shaExtendStep 48 ((groupsOf 4 block.length block).map word4)

/-- One SHA-256 compression round with round constant `k` and schedule word
`w`, on a packed state. -/
def shaRound (st : Nat) (kw : Nat × Nat) : Nat :=
  let a := unpack st 7
  let b := unpack st 6
  let c := unpack st 5
  let e := unpack st 3
  let f := unpack st 2
  let g := unpack st 1
  let S1 := (rotr 6 e) ^^^ (rotr 11 e) ^^^ (rotr 25 e)
  let ch := (e &&& f) ^^^ ((e ^^^ 4294967295) &&& g)
  let t1 := w32 (unpack st 0 + S1 + ch + kw.1 + kw.2)
  let S0 := (rotr 2 a) ^^^ (rotr 13 a) ^^^ (rotr 22 a)
  let maj := (a &&& b) ^^^ (a &&& c) ^^^ (b &&& c)
  pack8 (w32 (t1 + w32 (S0 + maj))) a b c (w32 (unpack st 4 + t1)) e f g

/-- Pointwise mod `2 ^ 32` addition of two packed states. -/
def addState (s r : Nat) : Nat :=
  pack8 (w32 (unpack s 7 + unpack r 7)) (w32 (unpack s 6 + unpack r 6))
    (w32 (unpack s 5 + unpack r 5)) (w32 (unpack s 4 + unpack r 4))
    (w32 (unpack s 3 + unpack r 3)) (w32 (unpack s 2 + unpack r 2))
    (w32 (unpack s 1 + unpack r 1)) (w32 (unpack s 0 + unpack r 0))

/-- Compress one 64-byte block into the running packed SHA-256 state. -/
def shaBlock (s : Nat) (block : List Nat) : Nat :=
  addState s ((shaK.zip (shaSchedule block)).foldl shaRound s)

/-- SHA-256 of a byte string, as a list of 32 digest bytes: the big-endian
bytes of the final packed state. -/
def sha256 (msg : List Nat) : List Nat :=
  let p := shaPad msg
  beBytes 32 ((groupsOf 64 p.length p).foldl shaBlock shaInit)

/-- The base58btc digit alphabet used for CIDv0 string rendering. -/
def b58Alphabet : String := "123456789ABCDEFGHJKLMNPQRSTUVWXYZabcdefghijkmnopqrstuvwxyz"

/-- Digit `n` of the base58btc alphabet. -/
def b58Digit (n : Nat) : Char := b58Alphabet.data.getD n '1'

/-- Base-58 digit expansion of `n`, most significant digit first; `fuel`
bounds the number of digits. -/
def b58Digits : Nat → Nat → List Char
  | 0, _ => []
  | fuel + 1, n => if n = 0 then [] else b58Digits fuel (n / 58) ++ [b58Digit (n % 58)]

/-- Interpret a byte string as a big-endian natural number. -/
def bytesToNat (bs : List Nat) : Nat := bs.foldl (fun acc b => acc * 256 + b) 0

/-- Base58btc rendering of a byte string, with one leading `1` per leading
zero byte, as the Rust `cid`/`multibase` crates produce for CIDv0. -/
def base58btc (bs : List Nat) : String :=
  let zeros := (bs.takeWhile (fun b => b == 0)).length
  String.mk (List.replicate zeros '1' ++ b58Digits (8 * bs.length) (bytesToNat bs))

/-- UTF-8 encoding of one character. -/
def utf8Char (c : Char) : List Nat :=
  let n := c.toNat
  if n < 128 then [n]
  else if n < 2048 then [192 + n / 64, 128 + n % 64]
  else if n < 65536 then [224 + n / 4096, 128 + n / 64 % 64, 128 + n % 64]
  else [240 + n / 262144, 128 + n / 4096 % 64, 128 + n / 64 % 64, 128 + n % 64]

/-- UTF-8 byte encoding of a string, as Rust `str::as_bytes` yields. -/
def utf8 (s : String) : List Nat := (s.data.map utf8Char).flatten

/-- Lower-case hexadecimal digit `n`. -/
def hexDigit (n : Nat) : Char := "0123456789abcdef".data.getD n '0'

/-- JSON escaping of one character, exactly as serde_json renders string
contents: quote and backslash escaped, the five short control escapes, other
control characters as a lower-case u-escape, everything else literal. -/
def jsonEscapeChar (c : Char) : List Char :=
  if c = '"' then ['\\', '"']
  else if c = '\\' then ['\\', '\\']
  else if c.toNat = 8 then ['\\', 'b']
  else if c.toNat = 9 then ['\\', 't']
  else if c.toNat = 10 then ['\\', 'n']
  else if c.toNat = 12 then ['\\', 'f']
  else if c.toNat = 13 then ['\\', 'r']
  else if c.toNat < 32 then ['\\', 'u', '0', '0', hexDigit (c.toNat / 16), hexDigit (c.toNat % 16)]
  else [c]

/-- A JSON string literal with serde_json escaping. -/
def jsonString (s : String) : String :=
  String.mk ('"' :: (s.data.map jsonEscapeChar).flatten ++ ['"'])

/-- An `f64` field of a record, represented by the decimal rendering that
serde_json (via ryu, shortest round-trip form) prints for it. The repository
only ever serializes these fields, so the rendering is the one observable. -/
structure F64 where
  render : String
deriving DecidableEq

/-- Skill, from `common/src/cid.rs`; `u8` fields are modelled as `Nat`. -/
structure Skill where
  speed : Nat
  shooting : Nat
  passing : Nat
  dribbling : Nat
  defense : Nat
  physical : Nat
  goal_tending : Nat
deriving DecidableEq

/-- Attribute, from `common/src/cid.rs`. -/
structure Attribute where
  display_type : String
  trait_type : String
  value : F64
deriving DecidableEq

/-- Player, from `common/src/cid.rs`; field order is the struct declaration
order, which serde_json serializes in. -/
structure Player where
  name : String
  jersey_number : Nat
  description : String
  external_url : String
  image : String
  tier : Nat
  overall_rating : F64
  skill_multiplier : F64
  skill : Skill
  attributes : List Attribute
deriving DecidableEq

/-- FileStats, from `common/src/cid.rs`. -/
structure FileStats where
  cid : List Nat
  blocks : Nat
  bytes : Nat
deriving DecidableEq

/-- serde_json rendering of an `Attribute` value. -/
def serializeAttribute (a : Attribute) : String :=
  "\x7b\"display_type\":" ++ jsonString a.display_type ++
    ",\"trait_type\":" ++ jsonString a.trait_type ++
    ",\"value\":" ++ a.value.render ++ "\x7d"

/-- serde_json rendering of a `Skill` value. -/
def serializeSkill (s : Skill) : String :=
  "\x7b\"speed\":" ++ Nat.repr s.speed ++
    ",\"shooting\":" ++ Nat.repr s.shooting ++
    ",\"passing\":" ++ Nat.repr s.passing ++
    ",\"dribbling\":" ++ Nat.repr s.dribbling ++
    ",\"defense\":" ++ Nat.repr s.defense ++
    ",\"physical\":" ++ Nat.repr s.physical ++
    ",\"goal_tending\":" ++ Nat.repr s.goal_tending ++ "\x7d"

/-- serde_json rendering of a list as a JSON array. -/
def serializeList (f : α → String) (xs : List α) : String :=
  "[" ++ String.intercalate "," (xs.map f) ++ "]"

/-- serde_json rendering of a `Player`: `serde_json::to_string(player)`. -/
def serializePlayer (p : Player) : String :=
  "\x7b\"name\":" ++ jsonString p.name ++
    ",\"jersey_number\":" ++ Nat.repr p.jersey_number ++
    ",\"description\":" ++ jsonString p.description ++
    ",\"external_url\":" ++ jsonString p.external_url ++
    ",\"image\":" ++ jsonString p.image ++
    ",\"tier\":" ++ Nat.repr p.tier ++
    ",\"overall_rating\":" ++ p.overall_rating.render ++
    ",\"skill_multiplier\":" ++ p.skill_multiplier.render ++
    ",\"skill\":" ++ serializeSkill p.skill ++
    ",\"attributes\":" ++ serializeList serializeAttribute p.attributes ++ "\x7d"

/-- Protobuf varint encoding of `n` (little-endian base-128 groups); ten
bytes of fuel cover every 64-bit value. -/
def pvarint : Nat → Nat → List Nat
  | 0, _ => []
  | fuel + 1, n => if n < 128 then [n] else (n % 128 + 128) :: pvarint fuel (n / 128)

/-- Protobuf varint of `n` with enough fuel for any value that occurs. -/
def varint (n : Nat) : List Nat := pvarint 10 n

/-- The fixed chunk size of the `ipfs_unixfs` `FileAdder` default chunker
(256 KiB, go-ipfs compatible). -/
def CHUNK_SIZE : Nat := 262144

/-- UnixFS `Data` protobuf message of a file leaf holding one chunk: Type =
File, the chunk as the Data field (omitted when empty), filesize. Modelled
from the external `ipfs_unixfs` crate's go-ipfs-compatible block layout,
validated against the crate's known empty-file and single-block CIDs. -/
def unixfsLeafData (chunk : List Nat) : List Nat :=
  if chunk.isEmpty then [8, 2, 24, 0]
  else [8, 2, 18] ++ varint chunk.length ++ chunk ++ [24] ++ varint chunk.length

/-- The dag-pb block of a file leaf: a PBNode with no links whose Data field
carries the UnixFS leaf message. -/
def dagPbLeaf (chunk : List Nat) : List Nat :=
  let d := unixfsLeafData chunk
  [10] ++ varint d.length ++ d

/-- The CIDv0 of a block, as `Cid::to_bytes` renders it: the sha2-256
multihash prefix `0x12 0x20` followed by the 32 digest bytes. -/
def blockCid (blk : List Nat) : List Nat := 18 :: 32 :: sha256 blk

/-- Metadata of a finished dag node needed to link to it from a parent:
its CID, its cumulative dag size (Tsize), and the file content size below it. -/
structure NodeMeta where
  cid : List Nat
  tsize : Nat
  fsize : Nat
deriving DecidableEq

/-- Metadata of a leaf block for one chunk. -/
def leafMeta (chunk : List Nat) : NodeMeta :=
  ⟨blockCid (dagPbLeaf chunk), (dagPbLeaf chunk).length, chunk.length⟩

/-- One encoded PBLink: child CID, empty Name, Tsize. -/
def pbLink (m : NodeMeta) : List Nat :=
  let inner := [10] ++ varint m.cid.length ++ m.cid ++ [18, 0, 24] ++ varint m.tsize
  [18] ++ varint inner.length ++ inner

/-- The dag-pb block of an internal (stem) node over `children`: the encoded
links followed by a UnixFS Data message with Type = File, total filesize and
one blocksize per child. -/
def dagPbStem (children : List NodeMeta) : List Nat :=
  let fs := (children.map NodeMeta.fsize).sum
  let d := [8, 2, 24] ++ varint fs ++ (children.map (fun c => [32] ++ varint c.fsize)).flatten
  (children.map pbLink).flatten ++ [10] ++ varint d.length ++ d

/-- Metadata of a stem node over `children`. -/
def stemMeta (children : List NodeMeta) : NodeMeta :=
  ⟨blockCid (dagPbStem children), (dagPbStem children).length + (children.map NodeMeta.tsize).sum,
   (children.map NodeMeta.fsize).sum⟩

/-- The link-node branching factor of the balanced collector (174 links per
node, go-ipfs compatible). -/
def LINK_WIDTH : Nat := 174

/-- Add one completed block's link to the balanced collector's pending
levels (bottom level first, links in arrival order). A level that fills to
`LINK_WIDTH` links flushes its stem out of `push` at that moment: the stem
block is returned (second component) and its link propagates to the level
above. `fuel` bounds the propagation height and is instantiated with one
more than the number of levels. -/
def collectorAdd : Nat → List (List NodeMeta) → NodeMeta →
    List (List NodeMeta) × List (List Nat)
  | 0, levels, _ => (levels, [])
  | _ + 1, [], m => ([[m]], [])
  | fuel + 1, lv :: up, m =>
    if lv.length + 1 = LINK_WIDTH then
      let r := collectorAdd fuel up (stemMeta (lv ++ [m]))
      ([] :: r.1, dagPbStem (lv ++ [m]) :: r.2)
    else ((lv ++ [m]) :: up, [])

/-- Collapse the collector's pending levels at `finish`, emitting the
remaining stems bottom-up with the root last. A lone link on a level
propagates upward without a wrapping stem, and a level holding only the
root's link emits nothing — that root block was already returned earlier.
`fuel` bounds the number of levels. -/
def collectorFinish : Nat → List (List NodeMeta) → List (List Nat)
  | 0, _ => []
  | _ + 1, [] => []
  | _ + 1, [lv] => if lv.length ≤ 1 then [] else [dagPbStem lv]
  | fuel + 1, lv :: up :: rest =>
    if lv.isEmpty then collectorFinish fuel (up :: rest)
    else if lv.length = 1 then collectorFinish fuel ((up ++ lv) :: rest)
    else dagPbStem lv :: collectorFinish fuel ((up ++ [stemMeta lv]) :: rest)

/-- The running state of the `FileAdder`: the bytes buffered for the current
chunk (kept reversed, with the length cached) and the balanced collector's
pending link levels. A chunk completes — and its leaf block is returned out
of `push` — the moment the buffer fills to the chunk size. -/
structure AdderSt where
  bufRev : List Nat
  bufLen : Nat
  levels : List (List NodeMeta)

/-- Push every byte of the remaining input into the adder in turn, the
`for byte in input` loop of `compute_cid`, carrying the adder state
componentwise. The blocks `push` returns — each leaf flushed when the
buffer fills, and each stem flushed when a collector level fills — are
dropped by the caller, which ignores the return value of `push`. -/
def adderRun : List Nat → List Nat → Nat → List (List NodeMeta) → AdderSt
  | [], bufRev, bufLen, levels => ⟨bufRev, bufLen, levels⟩
  | b :: rest, bufRev, bufLen, levels =>
    if bufLen + 1 = CHUNK_SIZE then
      adderRun rest [] 0
        (collectorAdd (levels.length + 1) levels (leafMeta (b :: bufRev).reverse)).1
    else adderRun rest (b :: bufRev) (bufLen + 1) levels

/-- The blocks emitted by `FileAdder::finish` after pushing `input` byte by
byte. When bytes remain buffered — or no chunk ever completed, as for the
empty input — the buffered chunk's leaf (the empty-file leaf for no input)
is emitted first, its link joins the collector (emitting any stem that
completes right then), and the remaining levels collapse, root last. When
the buffer is empty with links pending, every leaf was already returned out
of `push` (and dropped), so `finish` emits only the collapse stems — and
nothing at all when a single pending link is the root. -/
def adderFinishBlocks (input : List Nat) : List (List Nat) :=
  let st := adderRun input [] 0 []
  if st.bufLen = 0 ∧ st.levels ≠ [] then
    collectorFinish (st.levels.length + 2) st.levels
  else
    let lastChunk := st.bufRev.reverse
    let added := collectorAdd (st.levels.length + 1) st.levels (leafMeta lastChunk)
    dagPbLeaf lastChunk :: (added.2 ++ collectorFinish (added.1.length + 2) added.1)

/-- compute_cid, from `common/src/cid.rs`: push every input byte into a
default `FileAdder`, finish it, and fold the finished blocks into a
`FileStats` — the CID of the last block (the root), the count of the blocks
and their total byte size. -/
def compute_cid (input : List Nat) : FileStats :=
  let blocks := adderFinishBlocks input
  ⟨((blocks.map blockCid).getLastD []), blocks.length, (blocks.map List.length).sum⟩

/-- Parse of `Cid::try_from` on a byte string, for the CIDv0 case the
repository produces: exactly 34 bytes beginning with the sha2-256 multihash
tag `0x12 0x20`; anything else is rejected here (modelled from the external
`cid` crate for the byte strings this code can produce). -/
def cidTryFrom (b : List Nat) : Option (List Nat) :=
  if b.length = 34 ∧ b.getD 0 0 = 18 ∧ b.getD 1 0 = 32 then some b else none

/-- Alias of the byte-level `compute_cid` so the method below can refer to it
from inside the `Player` namespace. -/
def computeCidBytes (input : List Nat) : FileStats := compute_cid input

/-- Player::compute_cid, from the blanket `ComputeCid` impl: serialize with
serde_json, take the UTF-8 bytes, and run `compute_cid` on them. -/
def Player.compute_cid (p : Player) : FileStats :=
  computeCidBytes (utf8 (serializePlayer p))

/-- Player::cid_string: parse the computed CID bytes back and render them in
base58btc; `none` models the `unwrap` panic on an unparsable CID. -/
def Player.cid_string (p : Player) : Option String :=
  (cidTryFrom p.compute_cid.cid).map base58btc

/-- Player::formatted_cid: the `ipfs://`-prefixed CID string; it calls
`cid_string`, whose `unwrap` of the CID parse panics when the stats carry no
parsable CID (as happens for a serialization of exactly one full chunk), so
the panic is modelled as `none` here too. -/
def Player.formatted_cid (p : Player) : Option String :=
  (Player.cid_string p).map (fun s => "ipfs://" ++ s)

/-- The test player of `common/src/cid.rs` and `apps/src/bin/publisher.rs`
(`gen_test_player`). -/
def testPlayer : Player :=
  { name := "Lionel Messi"
    jersey_number := 10
    description := "A professional footballer who plays as a forward for Paris Saint-Germain and the Argentina national team."
    external_url := "https://en.wikipedia.org/wiki/Lionel_Messi"
    image := "https://upload.wikimedia.org/wikipedia/commons/4/47/Lionel_Messi_20180626.jpg"
    tier := 1
    overall_rating := ⟨"94.0"⟩
    skill_multiplier := ⟨"1.0"⟩
    skill := ⟨90, 95, 90, 96, 32, 68, 0⟩
    attributes :=
      [⟨"Physical", "Height", ⟨"170.0"⟩⟩, ⟨"Physical", "Weight", ⟨"72.0"⟩⟩] }

/-- The test player with `jersey_number` changed from 10 to 7 and every
other field unchanged (the end-to-end scenario of the spec). -/
def testPlayer7 : Player := { testPlayer with jersey_number := 7 }

/-- A Steel `Commitment` (`risc0_steel::Commitment`): a solidity struct of a
`uint256` id (encoded block number and version), a `bytes32` digest and a
`bytes32` configID. Each word is modelled as a `Nat` below `2 ^ 256`,
reduced at ABI-encoding time. -/
structure Commitment where
  id : Nat
  digest : Nat
  configID : Nat
deriving DecidableEq

/-- The EVM execution environment a guest derives from its `EthEvmInput`:
its own state commitment, and the verified view of contract storage answering
`ownerOf` and `tokenURI` for a contract address and a token id. Owner
addresses and token ids are `Nat` values. -/
structure EvmEnv where
  commitment : Commitment
  ownerOf : Nat → Nat → Nat
  tokenURI : Nat → Nat → String

/-- The solidity `Journal` struct of `verify_cid.rs` (called `VerifyJournal`
in `make_team.rs` and `publisher.rs`): a commitment and an owner address. -/
structure VerifyJournal where
  commitment : Commitment
  owner : Nat
deriving DecidableEq

/-- One 32-byte big-endian ABI word. -/
def abiWord (n : Nat) : List Nat := beBytes 32 n

/-- ABI encoding of a `Commitment` struct: three head words. -/
def Commitment.abi_encode (c : Commitment) : List Nat :=
  abiWord c.id ++ abiWord c.digest ++ abiWord c.configID

/-- ABI encoding of a `VerifyJournal`: the commitment words followed by the
owner address left-padded to one word, as `abi_encode` of the static solidity
tuple produces. -/
def VerifyJournal.abi_encode (j : VerifyJournal) : List Nat :=
  j.commitment.abi_encode ++ abiWord j.owner

/-- The solidity `Journal` struct declared in `make_team.rs`: a commitment,
a `bytes32` team CID and a fixed array of eleven player ids. The guest
declares it but never constructs or commits it. -/
structure TeamJournal where
  commitment : Commitment
  teamCID : Nat
  playerIds : Fin 11 → Nat

/-- ABI encoding of the aggregate `Journal` struct: fifteen static words. -/
def TeamJournal.abi_encode (j : TeamJournal) : List Nat :=
  j.commitment.abi_encode ++ abiWord j.teamCID ++
    ((List.finRange 11).map (fun i => abiWord (j.playerIds i))).flatten

/-- A byte string is an encoded aggregate `Journal` when some `TeamJournal`
ABI-encodes to it. -/
def isTeamJournalEncoding (bs : List Nat) : Prop :=
  ∃ j : TeamJournal, TeamJournal.abi_encode j = bs

/-- A proof artifact usable as an assumption: the program (image) identifier
it was generated for and its journal bytes. -/
structure Receipt where
  imageId : Nat
  journal : List Nat
deriving DecidableEq

/-- Verification of one assumption candidate against an expected program
identifier and expected journal bytes: both must match exactly. -/
def verifyAssumption (r : Receipt) (imageId : Nat) (journalBytes : List Nat) : Bool :=
  r.imageId == imageId && r.journal == journalBytes

/-- The semantics of `env::verify(imageId, bytes)`: the proof only closes if
some supplied receipt verifies for that image identifier and exact journal. -/
def envVerify (assumptions : List Receipt) (imageId : Nat) (journalBytes : List Nat) : Bool :=
  assumptions.any (fun r => verifyAssumption r imageId journalBytes)

/-- The compiled-in player contract address of `verify_cid.rs`
(`PLAYER_CONTRACT_ADDRESS`). -/
def PLAYER_CONTRACT_ADDRESS : Nat := 0xca991c3210075409787fe2a625c22b27fbA098f6

/-- The compiled-in player contract address of `make_team.rs`, declared
separately there with the same literal. -/
def team_PLAYER_CONTRACT_ADDRESS : Nat := 0xca991c3210075409787fe2a625c22b27fbA098f6

/-- The leaf guest `verify_cid.rs`: read `ownerOf` and `tokenURI` for the
token at the compiled-in contract address from the verified environment,
recompute the player's formatted CID, assert the URI equals it, and commit
the journal of the environment's commitment and the owner read on chain.
Both the `unwrap` panic inside `formatted_cid` (when the CID bytes do not
parse) and the `assert!` panic abort the guest without a journal, modelled
as `none`. -/
def verify_cid (chain : EvmEnv) (player : Player) (token_id : Nat) : Option VerifyJournal :=
  let owner := chain.ownerOf PLAYER_CONTRACT_ADDRESS token_id
  let player_cid := chain.tokenURI PLAYER_CONTRACT_ADDRESS token_id
  (player.formatted_cid).bind (fun expected_cid =>
    if expected_cid = player_cid then some ⟨chain.commitment, owner⟩ else none)

/-- The journal bytes the leaf guest commits (`env::commit_slice` of the ABI
encoding), when it succeeds. -/
def verify_cid_committed (chain : EvmEnv) (player : Player) (token_id : Nat) : Option (List Nat) :=
  (verify_cid chain player token_id).map VerifyJournal.abi_encode

/-- The expected leaf journal the aggregate guest `make_team.rs` constructs
at loop index `i`: its own environment's commitment and the claimed owner
read from the input, the same at every index. -/
def make_team_expected_journal (chain : EvmEnv) (owner : Nat) (i : Nat) : VerifyJournal :=
  ⟨chain.commitment, owner⟩

/-- The eleven `env::verify` calls the aggregate guest makes: at every index
`i` in `0..11` it requests the leaf program identifier `verify_cid_id`
(`VERIFY_CID_ID`, a link-time constant threaded as a parameter) together
with the ABI encoding of the expected journal at `i`. The players and token
ids read from the input are bound in the loop body but unused. -/
def make_team_verify_calls (verify_cid_id : Nat) (chain : EvmEnv) (owner : Nat)
    (players : Fin 11 → Player) (token_ids : Fin 11 → Nat) : List (Nat × List Nat) :=
  (List.range 11).map
    (fun i => (verify_cid_id, (make_team_expected_journal chain owner i).abi_encode))

/-- The aggregate guest `make_team.rs`: read the chain input, claimed owner,
eleven players and eleven token ids, then run the verification loop; the run
closes (`some`) only when every `env::verify` call is satisfied by the
supplied assumptions, and on success it commits no journal bytes at all —
the on-chain re-check and the journal commit are absent from the program
(present only as comments in the source). -/
def make_team (verify_cid_id : Nat) (assumptions : List Receipt) (chain : EvmEnv)
    (owner : Nat) (players : Fin 11 → Player) (token_ids : Fin 11 → Nat) :
    Option (List Nat) :=
  if (make_team_verify_calls verify_cid_id chain owner players token_ids).all
      (fun c => envVerify assumptions c.1 c.2)
  then some [] else none

/-- Rust call outcome: a value returned to the caller, or a panic unwinding
through the caller with a message. -/
inductive RustOutcome (α : Type) where
  | returns (a : α)
  | panics (msg : String)
deriving DecidableEq

/-- The blanket `impl ComputeCid for T: Serialize` method `compute_cid`,
generic in the serializer: `serde_json::to_string(self)` yields a
`Result<String>`, and the method calls `.unwrap()` on it — a failing
serialization therefore panics with the error's message instead of
returning anything. -/
def genericComputeCid (ser : α → Except String String) (x : α) : RustOutcome FileStats :=
  match ser x with
  | .ok s => .returns (compute_cid (utf8 s))
  | .error e => .panics e

/-- A serializer that always fails, witnessing a record that cannot be
canonically serialized. -/
def failingSer : Unit → Except String String := fun _ => .error "serialization failed"

/-- Whether a call outcome hands a value back to the caller. -/
def RustOutcome.returnsToCaller : RustOutcome α → Bool
  | .returns _ => true
  | .panics _ => false

/-- A minimal player record, used as a small concrete input. -/
def trivialPlayer : Player :=
  { name := ""
    jersey_number := 0
    description := ""
    external_url := ""
    image := ""
    tier := 0
    overall_rating := ⟨"0.0"⟩
    skill_multiplier := ⟨"0.0"⟩
    skill := ⟨0, 0, 0, 0, 0, 0, 0⟩
    attributes := [] }

/-- A concrete all-zero commitment. -/
def commit0 : Commitment := ⟨0, 0, 0⟩

/-- A concrete environment: zero commitment, every owner zero, empty URIs. -/
def env0 : EvmEnv := ⟨commit0, fun _ _ => 0, fun _ _ => ""⟩

/-- A concrete environment agreeing with `env0` at the player contract
address but differing at address 123. -/
def envOther : EvmEnv := ⟨commit0, fun a _ => if a = 123 then 99 else 0, fun _ _ => ""⟩

/-- A concrete environment whose stored URI for every token is the trivial
player's formatted CID. -/
def chainW : EvmEnv :=
  ⟨⟨1, 2, 3⟩, fun _ _ => 5, fun _ _ => (Player.formatted_cid trivialPlayer).getD ""⟩

/-- A concrete receipt for leaf-program identifier 0 carrying exactly the
journal the aggregate expects under `env0` and owner 0. -/
def receipt0 : Receipt := ⟨0, VerifyJournal.abi_encode ⟨commit0, 0⟩⟩

/-- Eleven copies of the trivial player. -/
def elevenPlayers : Fin 11 → Player := fun _ => trivialPlayer

/-- Eleven zero token ids. -/
def elevenTokens : Fin 11 → Nat := fun _ => 0

/-! Helper lemmas shared by the claim theorems. -/

theorem beBytes_length (k : Nat) : ∀ n, (beBytes k n).length = k := by
  induction k with
  | zero => intro n; rfl
  | succ k ih => intro n; simp [beBytes, ih]

theorem abiWord_length (n : Nat) : (abiWord n).length = 32 := beBytes_length 32 n

theorem adderRun_replicate : ∀ k j, 1 ≤ k → k + j = CHUNK_SIZE →
    adderRun (List.replicate k 0) (List.replicate j 0) j []
      = ⟨[], 0, [[leafMeta (List.replicate CHUNK_SIZE 0)]]⟩ := by
  intro k
  induction k with
  | zero => intro j h _; exact absurd h (by simp)
  | succ k ih =>
    intro j h1 hsum
    rw [List.replicate_succ]
    simp only [adderRun]
    by_cases hj : j + 1 = CHUNK_SIZE
    · have hk : k = 0 := by omega
      subst hk
      rw [if_pos hj]
      have hc : (0 :: List.replicate j 0).reverse = List.replicate CHUNK_SIZE 0 := by
        rw [← List.replicate_succ, List.reverse_replicate, hj]
      simp [adderRun, hc, collectorAdd]
    · rw [if_neg hj, ← List.replicate_succ]
      exact ih (j + 1) (by omega) (by omega)

theorem teamJournal_encode_length (j : TeamJournal) :
    (TeamJournal.abi_encode j).length = 480 := by
  simp [TeamJournal.abi_encode, Commitment.abi_encode, abiWord_length,
    List.length_flatten, List.map_map, Function.comp_def]

/-! The claim theorems. -/

/-- C1. In every aggregate-proving run with claimed owner `owner` and the
stage's own commitment `chain.commitment`, the expected leaf journal at
every loop index equals the pair of that commitment and that owner — the
same journal at every index — and an assumption whose journal bytes or
program identifier differ from the expected ones fails assumption
verification. -/
theorem make_team_expected_journals_uniform (chain : EvmEnv) (owner : Nat) (i j : Nat)
    (verify_cid_id : Nat) (r : Receipt) :
    make_team_expected_journal chain owner i = ⟨chain.commitment, owner⟩
    ∧ make_team_expected_journal chain owner i = make_team_expected_journal chain owner j
    ∧ (r.imageId ≠ verify_cid_id
        ∨ r.journal ≠ VerifyJournal.abi_encode ⟨chain.commitment, owner⟩ →
        verifyAssumption r verify_cid_id
          (make_team_expected_journal chain owner i).abi_encode = false) := by
  refine ⟨rfl, rfl, fun h => ?_⟩
  cases h with
  | inl h => simp [verifyAssumption, h]
  | inr h => simp [verifyAssumption, make_team_expected_journal, h]

/-- Witness for C1 at a concrete run: a receipt for a different program
identifier fails verification against the expected journal. -/
theorem make_team_expected_journals_uniform_app :
    verifyAssumption ⟨1, []⟩ 0 (make_team_expected_journal env0 0 0).abi_encode = false :=
  (make_team_expected_journals_uniform env0 0 0 0 0 ⟨1, []⟩).2.2 (Or.inl (by decide))

/-- C2 counterexample. A concrete aggregate run in which all eleven
assumption verifications succeed closes with an empty committed journal:
no bytes are committed, and the empty byte string is not the ABI encoding
of any aggregate `Journal`, so no AggregateJournal is emitted. -/
theorem make_team_emits_no_journal_cx :
    make_team 0 [receipt0] env0 0 elevenPlayers elevenTokens = some []
    ∧ ¬ isTeamJournalEncoding [] := by
  refine ⟨by decide, fun h => ?_⟩
  obtain ⟨j, hj⟩ := h
  have hlen := teamJournal_encode_length j
  rw [hj] at hlen
  simp at hlen

/-- C2 amended. Whenever the aggregate prover's run closes successfully, the
committed journal byte string is empty: the guest commits nothing. -/
theorem make_team_commits_nothing (verify_cid_id : Nat) (assumptions : List Receipt)
    (chain : EvmEnv) (owner : Nat) (players : Fin 11 → Player) (token_ids : Fin 11 → Nat)
    (bytes : List Nat)
    (h : make_team verify_cid_id assumptions chain owner players token_ids = some bytes) :
    bytes = [] := by
  unfold make_team at h
  split at h
  · exact (Option.some.inj h).symm
  · cases h

/-- Witness for C2's amended claim at the concrete successful run. -/
theorem make_team_commits_nothing_app : ([] : List Nat) = [] :=
  make_team_commits_nothing 0 [receipt0] env0 0 elevenPlayers elevenTokens [] (by decide)

/-- C3. The leaf prover emits the journal of its commitment and the on-chain
owner exactly when the record's identifier renders to an external string
form — the rendering panics, aborting the guest, for records whose CID
bytes do not parse — and the stored URI equals that rendering; any emitted
journal carries the on-chain owner and the commitment, and on an assertion
failure (or a rendering panic) no journal is emitted. -/
theorem verify_cid_journal_iff (chain : EvmEnv) (p : Player) (t : Nat) :
    (verify_cid chain p t
        = some ⟨chain.commitment, chain.ownerOf PLAYER_CONTRACT_ADDRESS t⟩
      ↔ ∃ s, Player.formatted_cid p = some s
          ∧ chain.tokenURI PLAYER_CONTRACT_ADDRESS t = s)
    ∧ (∀ j, verify_cid chain p t = some j →
        j.owner = chain.ownerOf PLAYER_CONTRACT_ADDRESS t ∧ j.commitment = chain.commitment)
    ∧ (∀ s, Player.formatted_cid p = some s →
        chain.tokenURI PLAYER_CONTRACT_ADDRESS t ≠ s → verify_cid chain p t = none)
    ∧ (Player.formatted_cid p = none → verify_cid chain p t = none) := by
  rcases hf : Player.formatted_cid p with _ | s
  · refine ⟨?_, ?_, ?_, ?_⟩
    · simp [verify_cid, hf]
    · intro j hj; simp [verify_cid, hf] at hj
    · intro s' hs'; simp [hf] at hs'
    · intro _; simp [verify_cid, hf]
  · refine ⟨?_, ?_, ?_, ?_⟩
    · by_cases h : s = chain.tokenURI PLAYER_CONTRACT_ADDRESS t
      · simp [verify_cid, hf, h]
      · simp [verify_cid, hf, h, eq_comm]
    · intro j hj
      by_cases h : s = chain.tokenURI PLAYER_CONTRACT_ADDRESS t
      · simp [verify_cid, hf, h] at hj
        simp [← hj]
      · simp [verify_cid, hf, h] at hj
    · intro s' hs' hne
      simp [hf] at hs'
      subst hs'
      rcases eq_or_ne s (chain.tokenURI PLAYER_CONTRACT_ADDRESS t) with he | he
      · exact absurd he.symm hne
      · simp [verify_cid, hf, he]
    · intro hn; simp [hf] at hn

set_option maxRecDepth 1000000 in
set_option maxHeartbeats 1000000 in
/-- Witness for C3: a chain whose stored URI is the trivial player's
(successfully rendered) formatted CID makes the leaf prover emit the
journal. -/
theorem verify_cid_journal_iff_app :
    verify_cid chainW trivialPlayer 0
      = some ⟨chainW.commitment, chainW.ownerOf PLAYER_CONTRACT_ADDRESS 0⟩ :=
  (verify_cid_journal_iff chainW trivialPlayer 0).1.mpr
    ⟨(Player.formatted_cid trivialPlayer).getD "", by decide, rfl⟩

/-- C4 counterexample. A record that cannot be serialized makes the blanket
`compute_cid` implementation panic through the caller (the `unwrap` on the
serde_json result); no `SerializationError` value is returned — the outcome
is not a return to the caller at all. -/
theorem compute_cid_panics_cx :
    genericComputeCid failingSer () = RustOutcome.panics "serialization failed"
    ∧ (genericComputeCid failingSer ()).returnsToCaller = false :=
  ⟨rfl, rfl⟩

/-- C4 amended. For every record whose serialization fails, the blanket
`compute_cid` implementation panics with the serialization error's message
instead of returning an error value: its return type has no error path. -/
theorem compute_cid_unwrap_panics (ser : α → Except String String) (x : α) (e : String)
    (h : ser x = .error e) : genericComputeCid ser x = .panics e := by
  simp [genericComputeCid, h]

/-- Witness for C4's amended claim on the always-failing serializer. -/
theorem compute_cid_unwrap_panics_app :
    genericComputeCid failingSer () = RustOutcome.panics "serialization failed" :=
  compute_cid_unwrap_panics failingSer () "serialization failed" rfl

/-- C5. Computing a player's identifier twice yields identical identifiers,
and the identifier is a function of the record's canonical serialized bytes
alone: records with equal serde_json serializations get equal identifiers. -/
theorem compute_cid_deterministic (p q : Player) :
    Player.compute_cid p = Player.compute_cid p
    ∧ (serializePlayer p = serializePlayer q →
        Player.compute_cid p = Player.compute_cid q) := by
  refine ⟨rfl, fun h => ?_⟩
  simp only [Player.compute_cid, h]

/-- Witness for C5 at the trivial player. -/
theorem compute_cid_deterministic_app :
    Player.compute_cid trivialPlayer = Player.compute_cid trivialPlayer :=
  (compute_cid_deterministic trivialPlayer trivialPlayer).2 rfl

set_option maxRecDepth 1000000 in
set_option maxHeartbeats 4000000 in
/-- C6. Changing the test player's `jersey_number` from 10 to 7 while
keeping every other field fixed changes the computed content identifier:
the two records' serializations differ, and their CID bytes differ. -/
theorem jersey_number_changes_cid :
    testPlayer.jersey_number = 10
    ∧ testPlayer7 = { testPlayer with jersey_number := 7 }
    ∧ (Player.compute_cid testPlayer7).cid ≠ (Player.compute_cid testPlayer).cid := by
  refine ⟨rfl, rfl, ?_⟩
  decide

/-- C7. The aggregate prover's input arrays are typed at exactly eleven
players and eleven token ids, and every invocation performs exactly eleven
assumption verifications, independent of all inputs: the team size is the
literal 11 in the loop, not a configurable parameter. -/
theorem make_team_eleven_verifications (verify_cid_id : Nat) (chain : EvmEnv) (owner : Nat)
    (players : Fin 11 → Player) (token_ids : Fin 11 → Nat) :
    (make_team_verify_calls verify_cid_id chain owner players token_ids).length = 11 := by
  simp [make_team_verify_calls]

/-- C8. The aggregate prover's assumption verification is independent of the
supplied records and token ids: with the same chain input, owner and
assumptions, any two arrays of players and token ids produce the same eleven
verify calls and the same run outcome, because the expected journal depends
only on the stage's commitment and the claimed owner. -/
theorem make_team_independent_of_records (verify_cid_id : Nat) (assumptions : List Receipt)
    (chain : EvmEnv) (owner : Nat) (ps qs : Fin 11 → Player) (ts us : Fin 11 → Nat) :
    make_team_verify_calls verify_cid_id chain owner ps ts
      = make_team_verify_calls verify_cid_id chain owner qs us
    ∧ make_team verify_cid_id assumptions chain owner ps ts
      = make_team verify_cid_id assumptions chain owner qs us :=
  ⟨rfl, rfl⟩

/-- C9. Both guest programs compile in the one player contract address
`0xca991c3210075409787fe2a625c22b27fbA098f6`; the leaf circuit's owner and
URI reads depend only on the chain state at that address (two environments
agreeing there are indistinguishable to it, whatever other address the
process boundary configures), and the aggregate circuit performs no contract
read at all: its outcome depends only on the commitment. -/
theorem player_contract_address_fixed :
    PLAYER_CONTRACT_ADDRESS = 0xca991c3210075409787fe2a625c22b27fbA098f6
    ∧ team_PLAYER_CONTRACT_ADDRESS = PLAYER_CONTRACT_ADDRESS
    ∧ (∀ (c1 c2 : EvmEnv) (p : Player) (t : Nat),
        c1.commitment = c2.commitment →
        (∀ tok, c1.ownerOf PLAYER_CONTRACT_ADDRESS tok
          = c2.ownerOf PLAYER_CONTRACT_ADDRESS tok) →
        (∀ tok, c1.tokenURI PLAYER_CONTRACT_ADDRESS tok
          = c2.tokenURI PLAYER_CONTRACT_ADDRESS tok) →
        verify_cid c1 p t = verify_cid c2 p t)
    ∧ (∀ (verify_cid_id : Nat) (assumptions : List Receipt) (c1 c2 : EvmEnv) (owner : Nat)
        (ps : Fin 11 → Player) (ts : Fin 11 → Nat),
        c1.commitment = c2.commitment →
        make_team verify_cid_id assumptions c1 owner ps ts
          = make_team verify_cid_id assumptions c2 owner ps ts) := by
  refine ⟨rfl, rfl, ?_, ?_⟩
  · intro c1 c2 p t hc ho hu
    simp [verify_cid, hc, ho t, hu t]
  · intro vid assumptions c1 c2 owner ps ts hc
    simp [make_team, make_team_verify_calls, make_team_expected_journal, hc]

/-- Witness for C9: two concrete environments agreeing at the player
contract address (but disagreeing at address 123) are indistinguishable to
the leaf circuit. -/
theorem player_contract_address_fixed_app :
    verify_cid env0 trivialPlayer 0 = verify_cid envOther trivialPlayer 0 :=
  player_contract_address_fixed.2.2.1 env0 envOther trivialPlayer 0 rfl
    (fun _ => by simp [env0, envOther]; decide) (fun _ => rfl)

/-- C10. Evaluation of the code at the failing input: for an input of
exactly one full chunk (262144 bytes), the only leaf is flushed out of
`push` — whose return `compute_cid` drops — and `finish` emits no block, so
`compute_cid` returns stats with an empty CID vector and zero blocks, the
CID parse that `cid_string` and `formatted_cid` unwrap fails, and every
conjunct of the claim (non-empty CID, parseable, at least one block,
`cid_string` total) is false there. -/
theorem compute_cid_full_chunk_empty :
    compute_cid (List.replicate CHUNK_SIZE 0) = ⟨[], 0, 0⟩
    ∧ cidTryFrom (compute_cid (List.replicate CHUNK_SIZE 0)).cid = none := by
  have hrun : adderRun (List.replicate CHUNK_SIZE 0) [] 0 []
      = ⟨[], 0, [[leafMeta (List.replicate CHUNK_SIZE 0)]]⟩ := by
    have h := adderRun_replicate CHUNK_SIZE 0 (by simp [CHUNK_SIZE]) (by simp)
    simpa using h
  have hblocks : adderFinishBlocks (List.replicate CHUNK_SIZE 0) = [] := by
    simp only [adderFinishBlocks, hrun]
    simp [collectorFinish]
  constructor
  · simp only [compute_cid, hblocks]
    rfl
  · simp only [compute_cid, hblocks]
    rfl
